import Mathlib

/-!
Verification of the A2A (Agent2Agent) sample server: a shallow embedding of
the protocol types (`a2a-core/src/types.rs`, `a2a-core/src/jsonrpc.rs`), the
in-memory task store (`a2a-server/src/store.rs`), the agent executor contract
(`a2a-server/src/executor.rs`) and the request handler
(`a2a-server/src/handler.rs`), together with theorems about the handler's
observable behaviour.

Rust `HashMap<String, V>` is modelled as an association list with
insert-or-replace semantics; `anyhow::Result<T>` as `Except String T`;
`serde_json::Value` payloads that the handler never inspects (metadata maps,
structured data parts) as a small `JsonValue` inductive.  The asynchronous
background execution spawned by `message/send` is modelled sequentially: the
executor's emitted events are drained in FIFO order before the post-delay
read-back (the event queue is an ordered channel, so this is the order the
drain loop observes them in).
-/

namespace A2A

/-- Minimal JSON value, standing in for `serde_json::Value` in fields the
handler stores but never inspects. -/
inductive JsonValue : Type where
  | null : JsonValue
  | bool (b : Bool) : JsonValue
  | num (n : Int) : JsonValue
  | str (s : String) : JsonValue
  | arr (xs : List JsonValue) : JsonValue
  | obj (fields : List (String × JsonValue)) : JsonValue

/-- Task state within the A2A protocol (`types.rs`, `enum TaskState`). -/
inductive TaskState : Type where
  | Submitted
  | Working
  | InputRequired
  | Completed
  | Canceled
  | Failed
  | Unknown
deriving DecidableEq, Repr

/-- Base structure for file content (`types.rs`, `FileContentBase`). -/
structure FileContentBase : Type where
  name : Option String
  mime_type : Option String

/-- File content as base64-encoded bytes (`types.rs`, `FileContentBytes`). -/
structure FileContentBytes : Type where
  base : FileContentBase
  bytes : String

/-- File content as a URI (`types.rs`, `FileContentUri`). -/
structure FileContentUri : Type where
  base : FileContentBase
  uri : String

/-- File content, either bytes or URI based (`types.rs`, `enum FileContent`). -/
inductive FileContent : Type where
  | Bytes (f : FileContentBytes)
  | Uri (f : FileContentUri)

/-- A part of a message or artifact (`types.rs`, `struct Part`). -/
structure Part : Type where
  part_type : Option String
  text : Option String
  file : Option FileContent
  data : Option (List (String × JsonValue))
  metadata : Option (List (String × JsonValue))

/-- Create a text part (`Part::text`). -/
def Part.mkText (t : String) : Part :=
  { part_type := some "text"
    text := some t
    file := none
    data := none
    metadata := none }

/-- An output or intermediate file from a task (`types.rs`, `struct Artifact`). -/
structure Artifact : Type where
  name : Option String
  description : Option String
  parts : List Part
  index : Option Int
  append : Option Bool
  metadata : Option (List (String × JsonValue))
  last_chunk : Option Bool

/-- Status of a task (`types.rs`, `struct TaskStatus`). -/
structure TaskStatus : Type where
  state : TaskState

/-- An A2A task (`types.rs`, `struct Task`): `artifacts` is `Option`, so an
absent artifact list is distinct from an empty one. -/
structure Task : Type where
  id : String
  status : TaskStatus
  artifacts : Option (List Artifact)

/-- Create a new task with the given ID (`Task::new`): status starts at
`Working`, artifacts absent. -/
def Task.new (id : String) : Task :=
  { id := id
    status := { state := TaskState.Working }
    artifacts := none }

/-- Mark task as completed (`Task::complete`). -/
def Task.complete (t : Task) : Task :=
  { t with status := { state := TaskState.Completed } }

/-- Mark task as failed (`Task::fail`). -/
def Task.fail (t : Task) : Task :=
  { t with status := { state := TaskState.Failed } }

/-- Add an artifact to the task (`Task::with_artifact`):
`self.artifacts.get_or_insert_with(Vec::new).push(artifact)`. -/
def Task.with_artifact (t : Task) (artifact : Artifact) : Task :=
  { t with artifacts := some (t.artifacts.getD [] ++ [artifact]) }

/-- Terminal task states per the spec (§4.4): Completed, Canceled, Failed.
The source defines no such predicate; it only classifies states. -/
def TaskState.isTerminal : TaskState → Bool
  | .Completed => true
  | .Canceled => true
  | .Failed => true
  | _ => false

/-- A message in the A2A protocol (`types.rs`, `struct Message`). -/
structure Message : Type where
  role : String
  parts : List Part

/-- Create a new message with the given role (`Message::new`). -/
def Message.new (role : String) : Message :=
  { role := role, parts := [] }

/-- Add a text part to the message (`Message::with_text`). -/
def Message.with_text (m : Message) (t : String) : Message :=
  { m with parts := m.parts ++ [Part.mkText t] }

/-- Add a part to the message (`Message::with_part`). -/
def Message.with_part (m : Message) (p : Part) : Message :=
  { m with parts := m.parts ++ [p] }

/-- Create an agent message with text (`Message::agent_text`). -/
def Message.agent_text (t : String) : Message :=
  (Message.new "agent").with_text t

/-- Create a user message with text (`Message::user_text`). -/
def Message.user_text (t : String) : Message :=
  (Message.new "user").with_text t

/-! ## JSON-RPC types (`a2a-core/src/jsonrpc.rs`) -/

/-- JSON-RPC error codes (`enum ErrorCode`). -/
inductive ErrorCode : Type where
  | ParseError
  | InvalidRequest
  | MethodNotFound
  | InvalidParams
  | InternalError
  | TaskNotFound
deriving DecidableEq, Repr

/-- `ErrorCode::as_i32`: the numeric value of each error code. -/
def ErrorCode.as_i32 : ErrorCode → Int
  | .ParseError => -32700
  | .InvalidRequest => -32600
  | .MethodNotFound => -32601
  | .InvalidParams => -32602
  | .InternalError => -32603
  | .TaskNotFound => -32001

/-- JSON-RPC request ID (`enum RequestId`): string, number, or null. -/
inductive RequestId : Type where
  | str (s : String)
  | num (n : Int)
  | null
deriving DecidableEq, Repr

/-- JSON-RPC error object (`struct JsonRpcError`). -/
structure JsonRpcError : Type where
  code : Int
  message : String
  data : Option JsonValue

/-- `JsonRpcError::new`. -/
def JsonRpcError.new (code : ErrorCode) (message : String) : JsonRpcError :=
  { code := code.as_i32, message := message, data := none }

/-- `JsonRpcError::method_not_found`. -/
def JsonRpcError.method_not_found (message : String) : JsonRpcError :=
  JsonRpcError.new ErrorCode.MethodNotFound message

/-- `JsonRpcError::invalid_params`. -/
def JsonRpcError.invalid_params (message : String) : JsonRpcError :=
  JsonRpcError.new ErrorCode.InvalidParams message

/-- `JsonRpcError::internal_error`. -/
def JsonRpcError.internal_error (message : String) : JsonRpcError :=
  JsonRpcError.new ErrorCode.InternalError message

/-- `JsonRpcError::task_not_found`. -/
def JsonRpcError.task_not_found (message : String) : JsonRpcError :=
  JsonRpcError.new ErrorCode.TaskNotFound message

/-- JSON-RPC response (`struct JsonRpcResponse`).  The only result payload the
handler ever serializes is a `Task` (`serde_json::to_value(&task)`), so the
`result` field is modelled as `Option Task`. -/
structure JsonRpcResponse : Type where
  jsonrpc : String
  id : RequestId
  result : Option Task
  error : Option JsonRpcError

/-- `JsonRpcResponse::success`. -/
def JsonRpcResponse.mkSuccess (id : RequestId) (result : Task) : JsonRpcResponse :=
  { jsonrpc := "2.0", id := id, result := some result, error := none }

/-- `JsonRpcResponse::error`. -/
def JsonRpcResponse.mkError (id : RequestId) (error : JsonRpcError) : JsonRpcResponse :=
  { jsonrpc := "2.0", id := id, result := none, error := some error }

/-- Configuration for push notifications (`struct PushNotificationConfig`). -/
structure PushNotificationConfig : Type where
  url : String
  token : Option String

/-- Parameters for sending a task message (`struct TaskSendParams`). -/
structure TaskSendParams : Type where
  id : String
  session_id : Option String
  message : Message
  push_notification : Option PushNotificationConfig
  history_length : Option Int
  metadata : Option (List (String × JsonValue))

/-- Base parameters for task ID-based operations (`struct TaskIdParams`). -/
structure TaskIdParams : Type where
  id : String
  metadata : Option (List (String × JsonValue))

/-- Parameters for querying task information (`struct TaskQueryParams`). -/
structure TaskQueryParams : Type where
  base : TaskIdParams
  history_length : Option Int

/-! ## Association-list maps

`HashMap<String, V>` is modelled as an association list; `insertA` is
insert-or-replace keyed lookup matching `HashMap::insert`, `lookupA` is
`HashMap::get`, `eraseA` is `HashMap::remove`. -/

/-- Keyed lookup in an association list (`HashMap::get`). -/
def lookupA {α : Type} : List (String × α) → String → Option α
  | [], _ => none
  | (k, v) :: rest, k' => if k = k' then some v else lookupA rest k'

/-- Insert-or-replace in an association list (`HashMap::insert`). -/
def insertA {α : Type} : List (String × α) → String → α → List (String × α)
  | [], k, v => [(k, v)]
  | (k', v') :: rest, k, v =>
      if k' = k then (k, v) :: rest else (k', v') :: insertA rest k v

/-- Key removal in an association list (`HashMap::remove`). -/
def eraseA {α : Type} : List (String × α) → String → List (String × α)
  | [], _ => []
  | (k', v') :: rest, k => if k' = k then rest else (k', v') :: eraseA rest k

/-! ## In-memory task store (`a2a-server/src/store.rs`)

The `TaskStore` trait methods return `anyhow::Result`; the in-memory
implementation always returns `Ok`.  Mutating operations return the result
paired with the updated store. -/

/-- In-memory implementation of the task store (`struct InMemoryTaskStore`):
a task map and a history map. -/
structure InMemoryTaskStore : Type where
  tasks : List (String × Task)
  history : List (String × List Message)

/-- `InMemoryTaskStore::new`: both maps empty. -/
def InMemoryTaskStore.new : InMemoryTaskStore :=
  { tasks := [], history := [] }

/-- `store_task`: insert-or-replace the task keyed by its own `id`. -/
def InMemoryTaskStore.store_task (s : InMemoryTaskStore) (task : Task) :
    Except String Unit × InMemoryTaskStore :=
  (Except.ok (), { s with tasks := insertA s.tasks task.id task })

/-- `get_task`: keyed lookup, cloned snapshot. -/
def InMemoryTaskStore.get_task (s : InMemoryTaskStore) (id : String) :
    Except String (Option Task) :=
  Except.ok (lookupA s.tasks id)

/-- `update_task`: insert-or-replace the task keyed by its own `id`. -/
def InMemoryTaskStore.update_task (s : InMemoryTaskStore) (task : Task) :
    Except String Unit × InMemoryTaskStore :=
  (Except.ok (), { s with tasks := insertA s.tasks task.id task })

/-- `delete_task`: remove the task record. -/
def InMemoryTaskStore.delete_task (s : InMemoryTaskStore) (id : String) :
    Except String Unit × InMemoryTaskStore :=
  (Except.ok (), { s with tasks := eraseA s.tasks id })

/-- `store_message`: `history.entry(task_id).or_insert_with(Vec::new).push(message)`. -/
def InMemoryTaskStore.store_message (s : InMemoryTaskStore) (task_id : String)
    (message : Message) : Except String Unit × InMemoryTaskStore :=
  (Except.ok (),
    { s with history := insertA s.history task_id ((lookupA s.history task_id).getD [] ++ [message]) })

/-- `get_history`: the accumulated history, or empty if none
(`cloned().unwrap_or_default()`). -/
def InMemoryTaskStore.get_history (s : InMemoryTaskStore) (task_id : String) :
    Except String (List Message) :=
  Except.ok ((lookupA s.history task_id).getD [])

/-! ## Agent executor contract (`a2a-server/src/executor.rs`)

Events that can be emitted during agent execution, and the executor
capability set.  The event queue is an unbounded FIFO channel; since the
handler drains it with a single consumer after `execute` has returned, an
execution is modelled by the value `execute` returned together with the
ordered list of events it pushed. -/

/-- Events that can be emitted during agent execution (`enum AgentEvent`). -/
inductive AgentEvent : Type where
  | Message (msg : Message)
  | StatusUpdate (task : Task)
  | Completed (task : Task)
  | Failed (error : String)

/-- Context for agent execution (`struct RequestContext`). -/
structure RequestContext : Type where
  task_id : String
  session_id : Option String
  message : Message
  history : List Message

/-- The `AgentExecutor` trait: `execute` runs the agent's logic, pushing an
ordered list of events onto the queue and returning `Ok(())` or an error;
`cancel` is a best-effort cancellation request. -/
structure AgentExecutor : Type where
  execute : RequestContext → Except String Unit × List AgentEvent
  cancel : RequestContext → Except String Unit

/-! ## Request handler (`a2a-server/src/handler.rs`)

`serde_json::from_value` on the request's `params` blob is external library
code; a `params` value is modelled abstractly by the outcome of that parse at
each of the three parameter types the handler uses. -/

/-- Models a `serde_json::Value` appearing as request `params` by the
outcomes of `serde_json::from_value` at the parameter types the handler
deserializes it into. -/
structure ParamsValue : Type where
  asSend : Except String TaskSendParams
  asQuery : Except String TaskQueryParams
  asTaskId : Except String TaskIdParams

/-- JSON-RPC request (`struct JsonRpcRequest`): `id` and `params` optional
(absence distinct from explicit null). -/
structure JsonRpcRequest : Type where
  jsonrpc : String
  id : Option RequestId
  method : String
  params : Option ParamsValue

/-- Helper function to convert a message to an artifact
(`message_to_artifact`, handler.rs). -/
def message_to_artifact (message : Message) : Artifact :=
  { name := some (message.role ++ " message")
    description := none
    parts := message.parts
    index := none
    append := none
    metadata := none
    last_chunk := some true }

/-- One iteration of the drain loop in `handle_message_send` (handler.rs
lines 116-155): applies a single agent event to the store and reports
whether the loop continues (`Completed` and `Failed` break).  Store errors
are only logged (`tracing::error!`), never propagated. -/
def applyEvent (store : InMemoryTaskStore) (task_id : String) (event : AgentEvent) :
    InMemoryTaskStore × Bool :=
  match event with
  | .Message msg =>
      let (_, s1) := store.store_message task_id msg
      match s1.get_task task_id with
      | .ok (some task) =>
          let task := task.with_artifact (message_to_artifact msg)
          let (_, s2) := s1.update_task task
          (s2, true)
      | _ => (s1, true)
  | .StatusUpdate updated_task =>
      ((store.update_task updated_task).2, true)
  | .Completed completed_task =>
      ((store.update_task completed_task).2, false)
  | .Failed _error =>
      match store.get_task task_id with
      | .ok (some task) =>
          let task := { task with status := { state := TaskState.Failed } }
          ((store.update_task task).2, false)
      | _ => (store, false)

/-- The drain loop of `handle_message_send`: consume the queued events in
FIFO order, applying each to the store, stopping after a `Completed` or
`Failed` event. -/
def drainLoop (store : InMemoryTaskStore) (task_id : String) :
    List AgentEvent → InMemoryTaskStore
  | [] => store
  | event :: rest =>
      let (s, cont) := applyEvent store task_id event
      if cont then drainLoop s task_id rest else s

/-- The body of the `tokio::spawn`ed background block in
`handle_message_send` (handler.rs lines 110-156): run the executor — an
`execute` error is only logged (`tracing::error!("Agent execution failed")`)
— then drain the queued events. -/
def background (store : InMemoryTaskStore) (execResult : Except String Unit)
    (events : List AgentEvent) (task_id : String) : InMemoryTaskStore :=
  match execResult with
  | .error _e => drainLoop store task_id events
  | .ok _ => drainLoop store task_id events

/-- The final read-back step of `handle_message_send` (handler.rs lines
162-167): `task_store.get_task(&params.id).await.unwrap_or(Some(task)).unwrap()`.
`unwrap_or(Some(task))` replaces an `Err` outcome with the originally created
record; the trailing `Option::unwrap` panics when the read-back succeeded but
found no task, modelled as `none`. -/
def send_readback (original : Task) (reread : Except String (Option Task)) :
    Option Task :=
  match reread with
  | .error _ => some original
  | .ok v => v

/-- `handle_message_send` (handler.rs lines 42-170), sequential model over
the in-memory store: parse params, create the task, store the inbound
message, store the task, fetch history, run the executor and drain its
events, then read the task back for the response.  A `none` result models
the panic of the final `Option::unwrap`. -/
def handle_message_send (ex : AgentExecutor) (store : InMemoryTaskStore)
    (request_params : Option ParamsValue) (id : RequestId) :
    Option (JsonRpcResponse × InMemoryTaskStore) :=
  match request_params with
  | none =>
      some (JsonRpcResponse.mkError id (JsonRpcError.invalid_params "Missing parameters"), store)
  | some pv =>
      match pv.asSend with
      | .error e =>
          some (JsonRpcResponse.mkError id
            (JsonRpcError.invalid_params ("Invalid parameters: " ++ e)), store)
      | .ok params =>
          let task := Task.new params.id
          match store.store_message task.id params.message with
          | (.error e, s1) =>
              some (JsonRpcResponse.mkError id
                (JsonRpcError.internal_error ("Failed to store message: " ++ e)), s1)
          | (.ok _, s1) =>
              match s1.store_task task with
              | (.error e, s2) =>
                  some (JsonRpcResponse.mkError id
                    (JsonRpcError.internal_error ("Failed to store task: " ++ e)), s2)
              | (.ok _, s2) =>
                  let history := match s2.get_history task.id with
                    | .ok h => h
                    | .error _ => []
                  let context : RequestContext :=
                    { task_id := params.id
                      session_id := params.session_id
                      message := params.message
                      history := history }
                  let execOutcome := ex.execute context
                  let s3 := background s2 execOutcome.1 execOutcome.2 params.id
                  match send_readback task (s3.get_task params.id) with
                  | some t => some (JsonRpcResponse.mkSuccess id t, s3)
                  | none => none

/-- The core of `handle_task_get` (handler.rs lines 172-201), parameterized
over the store's `get_task` behaviour (the handler is generic over the
`TaskStore` trait). -/
def handle_task_get_core (get_task : String → Except String (Option Task))
    (request_params : Option ParamsValue) (id : RequestId) : JsonRpcResponse :=
  match request_params with
  | none => JsonRpcResponse.mkError id (JsonRpcError.invalid_params "Missing parameters")
  | some pv =>
      match pv.asQuery with
      | .error e =>
          JsonRpcResponse.mkError id
            (JsonRpcError.invalid_params ("Invalid parameters: " ++ e))
      | .ok params =>
          match get_task params.base.id with
          | .ok (some task) => JsonRpcResponse.mkSuccess id task
          | .ok none => JsonRpcResponse.mkError id (JsonRpcError.task_not_found "Task not found")
          | .error e =>
              JsonRpcResponse.mkError id
                (JsonRpcError.internal_error ("Failed to get task: " ++ e))

/-- `handle_task_get` instantiated at the in-memory store. -/
def handle_task_get (store : InMemoryTaskStore) (request_params : Option ParamsValue)
    (id : RequestId) : JsonRpcResponse :=
  handle_task_get_core store.get_task request_params id

/-- `handle_task_cancel` (handler.rs lines 203-266) over the in-memory
store: look the task up, force its status to `Canceled`, persist, fetch
history, build the synthetic cancellation context and invoke the executor's
`cancel` — whose failure is only logged — then return the now-Canceled
snapshot. -/
def handle_task_cancel (ex : AgentExecutor) (store : InMemoryTaskStore)
    (request_params : Option ParamsValue) (id : RequestId) :
    JsonRpcResponse × InMemoryTaskStore :=
  match request_params with
  | none =>
      (JsonRpcResponse.mkError id (JsonRpcError.invalid_params "Missing parameters"), store)
  | some pv =>
      match pv.asTaskId with
      | .error e =>
          (JsonRpcResponse.mkError id
            (JsonRpcError.invalid_params ("Invalid parameters: " ++ e)), store)
      | .ok params =>
          match store.get_task params.id with
          | .ok none =>
              (JsonRpcResponse.mkError id (JsonRpcError.task_not_found "Task not found"), store)
          | .error e =>
              (JsonRpcResponse.mkError id
                (JsonRpcError.internal_error ("Failed to get task: " ++ e)), store)
          | .ok (some task0) =>
              let task := { task0 with status := { state := TaskState.Canceled } }
              match store.update_task task with
              | (.error e, s1) =>
                  (JsonRpcResponse.mkError id
                    (JsonRpcError.internal_error ("Failed to update task: " ++ e)), s1)
              | (.ok _, s1) =>
                  let history := match s1.get_history params.id with
                    | .ok h => h
                    | .error _ => []
                  let context : RequestContext :=
                    { task_id := params.id
                      session_id := none
                      message := (Message.new "system").with_text "cancel"
                      history := history }
                  let _cancelAck := ex.cancel context
                  (JsonRpcResponse.mkSuccess id task, s1)

/-- `RequestHandler::handle` (handler.rs lines 28-40): default an absent
request id to `Null`, then dispatch on the method name; unknown methods get
a method-not-found error. -/
def handle (ex : AgentExecutor) (store : InMemoryTaskStore) (request : JsonRpcRequest) :
    Option (JsonRpcResponse × InMemoryTaskStore) :=
  let id := request.id.getD RequestId.null
  if request.method = "message/send" then
    handle_message_send ex store request.params id
  else if request.method = "tasks/get" then
    some (handle_task_get store request.params id, store)
  else if request.method = "tasks/cancel" then
    some (handle_task_cancel ex store request.params id)
  else
    some (JsonRpcResponse.mkError id
      (JsonRpcError.method_not_found ("Method not found: " ++ request.method)), store)

/-! ## Store invariants

Every operation of the handler stores a task under that task's own `id`
(`tasks.insert(task.id.clone(), task)`), so the task map always maps a key to
a task carrying that key as its identifier, and the drain loop never removes
a task from the map. -/

/-- Well-formedness of the in-memory store: each stored task sits under its
own identifier. -/
def InMemoryTaskStore.wf (s : InMemoryTaskStore) : Prop :=
  ∀ k t, lookupA s.tasks k = some t → t.id = k

theorem lookupA_insertA {α : Type} (l : List (String × α)) (k k' : String) (v : α) :
    lookupA (insertA l k v) k' = if k = k' then some v else lookupA l k' := by
  induction l with
  | nil => simp [insertA, lookupA]
  | cons hd tl ih =>
      obtain ⟨k0, v0⟩ := hd
      by_cases h0 : k0 = k
      · subst h0
        by_cases h1 : k0 = k'
        · simp [insertA, lookupA, h1]
        · simp [insertA, lookupA, h1]
      · by_cases h1 : k0 = k'
        · have hk : ¬k = k' := fun h => h0 (h1.trans h.symm)
          have hk2 : ¬k' = k := fun h => hk h.symm
          simp [insertA, lookupA, h0, h1, hk, hk2]
        · simp [insertA, lookupA, h0, h1, ih]

theorem lookupA_insertA_self {α : Type} (l : List (String × α)) (k : String) (v : α) :
    lookupA (insertA l k v) k = some v := by
  simp [lookupA_insertA]

theorem lookupA_insertA_ne {α : Type} (l : List (String × α)) (k k' : String) (v : α)
    (h : k ≠ k') : lookupA (insertA l k v) k' = lookupA l k' := by
  simp [lookupA_insertA, h]

theorem wf_insertA (l : List (String × Task)) (t : Task)
    (h : ∀ k u, lookupA l k = some u → u.id = k) :
    ∀ k u, lookupA (insertA l t.id t) k = some u → u.id = k := by
  intro k u hu
  rw [lookupA_insertA] at hu
  by_cases hk : t.id = k
  · rw [if_pos hk] at hu
    cases hu
    exact hk
  · rw [if_neg hk] at hu
    exact h k u hu

theorem isSome_lookupA_insertA (l : List (String × Task)) (t : Task) (k k' : String)
    (h : (lookupA l k').isSome) : (lookupA (insertA l k t) k').isSome := by
  rw [lookupA_insertA]
  by_cases hk : k = k'
  · rw [if_pos hk]; rfl
  · rw [if_neg hk]; exact h

theorem applyEvent_wf (s : InMemoryTaskStore) (tid : String) (e : AgentEvent)
    (h : s.wf) : (applyEvent s tid e).1.wf := by
  cases e with
  | Message msg =>
      simp only [applyEvent, InMemoryTaskStore.store_message, InMemoryTaskStore.get_task,
        InMemoryTaskStore.update_task]
      cases hlt : lookupA s.tasks tid with
      | none => simpa [InMemoryTaskStore.wf] using fun k t hk => h k t hk
      | some task =>
          simp only [InMemoryTaskStore.wf]
          exact wf_insertA _ _ (fun k u hk => h k u hk)
  | StatusUpdate u =>
      simp only [applyEvent, InMemoryTaskStore.update_task]
      exact wf_insertA _ _ h
  | Completed u =>
      simp only [applyEvent, InMemoryTaskStore.update_task]
      exact wf_insertA _ _ h
  | Failed err =>
      simp only [applyEvent, InMemoryTaskStore.get_task, InMemoryTaskStore.update_task]
      cases hlt : lookupA s.tasks tid with
      | none => simpa [InMemoryTaskStore.wf] using fun k t hk => h k t hk
      | some task =>
          simp only [InMemoryTaskStore.wf]
          exact wf_insertA s.tasks { task with status := { state := TaskState.Failed } } h

theorem applyEvent_mem (s : InMemoryTaskStore) (tid : String) (e : AgentEvent) (k : String)
    (h : (lookupA s.tasks k).isSome) : (lookupA (applyEvent s tid e).1.tasks k).isSome := by
  cases e with
  | Message msg =>
      simp only [applyEvent, InMemoryTaskStore.store_message, InMemoryTaskStore.get_task,
        InMemoryTaskStore.update_task]
      cases hlt : lookupA s.tasks tid with
      | none => exact h
      | some task => exact isSome_lookupA_insertA _ _ _ _ h
  | StatusUpdate u =>
      simp only [applyEvent, InMemoryTaskStore.update_task]
      exact isSome_lookupA_insertA _ _ _ _ h
  | Completed u =>
      simp only [applyEvent, InMemoryTaskStore.update_task]
      exact isSome_lookupA_insertA _ _ _ _ h
  | Failed err =>
      simp only [applyEvent, InMemoryTaskStore.get_task, InMemoryTaskStore.update_task]
      cases hlt : lookupA s.tasks tid with
      | none => exact h
      | some task => exact isSome_lookupA_insertA _ _ _ _ h

theorem drainLoop_wf (tid : String) (events : List AgentEvent) :
    ∀ s : InMemoryTaskStore, s.wf → (drainLoop s tid events).wf := by
  induction events with
  | nil => intro s hs; simpa [drainLoop] using hs
  | cons e rest ih =>
      intro s hs
      have hw := applyEvent_wf s tid e hs
      rcases hae : applyEvent s tid e with ⟨s', cont⟩
      rw [hae] at hw
      cases cont with
      | false => simpa [drainLoop, hae] using hw
      | true => simpa [drainLoop, hae] using ih s' hw

theorem drainLoop_mem (tid : String) (events : List AgentEvent) (k : String) :
    ∀ s : InMemoryTaskStore, (lookupA s.tasks k).isSome →
      (lookupA (drainLoop s tid events).tasks k).isSome := by
  induction events with
  | nil => intro s hs; simpa [drainLoop] using hs
  | cons e rest ih =>
      intro s hs
      have hm := applyEvent_mem s tid e k hs
      rcases hae : applyEvent s tid e with ⟨s', cont⟩
      rw [hae] at hm
      cases cont with
      | false => simpa [drainLoop, hae] using hm
      | true => simpa [drainLoop, hae] using ih s' hm

theorem background_eq_drainLoop (s : InMemoryTaskStore) (r : Except String Unit)
    (events : List AgentEvent) (tid : String) :
    background s r events tid = drainLoop s tid events := by
  cases r with
  | ok u => rfl
  | error e => rfl

/-! ## Claim theorems -/

/-- C10: on the `InMemoryTaskStore`, `store_task` and `update_task` are
extensionally equal — for every store state and every task both perform the
same insert-or-replace keyed by the task's identifier and both always return
`Ok(())` — so either may substitute for the other. -/
theorem store_task_eq_update_task (s : InMemoryTaskStore) (t : Task) :
    s.store_task t = s.update_task t ∧
    (s.store_task t).1 = Except.ok () ∧
    (s.update_task t).1 = Except.ok () :=
  ⟨rfl, rfl, rfl⟩

/-- C9: `get_history` returns `Ok` of the empty sequence on a fresh store
(never an error), `store_message` appends exactly one message at the end of
that identifier's history, and two consecutive `store_message` calls for the
same identifier yield the two messages appended in submission order. -/
theorem history_accumulates_in_order (s : InMemoryTaskStore) (tid : String)
    (m1 m2 : Message) :
    InMemoryTaskStore.new.get_history tid = Except.ok [] ∧
    (s.store_message tid m1).2.get_history tid =
      Except.map (fun h => h ++ [m1]) (s.get_history tid) ∧
    ((s.store_message tid m1).2.store_message tid m2).2.get_history tid =
      Except.map (fun h => h ++ [m1, m2]) (s.get_history tid) := by
  refine ⟨rfl, ?_, ?_⟩
  · simp [InMemoryTaskStore.store_message, InMemoryTaskStore.get_history,
      lookupA_insertA_self, Except.map, InMemoryTaskStore.new]
  · simp [InMemoryTaskStore.store_message, InMemoryTaskStore.get_history,
      lookupA_insertA_self, Except.map, InMemoryTaskStore.new]

/-- C2 (counterexample): the claim says that when the post-delay re-read of
`message/send` yields nothing, the originally-created record is returned and
the step never panics.  In the code,
`get_task(..).unwrap_or(Some(task)).unwrap()` only substitutes the original
record for an `Err`; a successful re-read that finds no task hits
`Option::unwrap` on `None` and panics (modelled as `none`), so the original
record is not returned. -/
theorem send_readback_ok_none_panics :
    send_readback (Task.new "task-1") (Except.ok none) = none ∧
    send_readback (Task.new "task-1") (Except.ok none) ≠ some (Task.new "task-1") := by
  refine ⟨rfl, ?_⟩
  intro h
  simp [send_readback] at h

/-- C2 (amended): after the fixed post-launch delay the handler re-reads the
task and returns the snapshot when one is found; the fallback to the
originally-created record applies exactly when the re-read returns an error;
when the re-read succeeds but finds no task under the identifier, the final
`Option::unwrap` panics (no value is produced). -/
theorem send_readback_cases (t u : Task) (e : String) :
    send_readback t (Except.ok (some u)) = some u ∧
    send_readback t (Except.error e) = some t ∧
    send_readback t (Except.ok none) = none :=
  ⟨rfl, rfl, rfl⟩

/-- C1 (counterexample): with the task stored as Working and an executor
whose `execute` returns an error while emitting no events, the background
block leaves the stored status at `Working`; the execution error is not
recorded as a `Failed` status, contradicting the claim that an `execute`
error transitions the stored task to Failed. -/
theorem exec_error_not_recorded_as_failed :
    Except.map (Option.map (fun t => t.status.state))
      ((background { tasks := [("task-1", Task.new "task-1")], history := [] }
        (Except.error "boom") [] "task-1").get_task "task-1") =
      Except.ok (some TaskState.Working) ∧
    Except.map (Option.map (fun t => t.status.state))
      ((background { tasks := [("task-1", Task.new "task-1")], history := [] }
        (Except.error "boom") [] "task-1").get_task "task-1") ≠
      Except.ok (some TaskState.Failed) := by
  refine ⟨rfl, ?_⟩
  intro h
  rw [show Except.map (Option.map (fun t => t.status.state))
      ((background { tasks := [("task-1", Task.new "task-1")], history := [] }
        (Except.error "boom") [] "task-1").get_task "task-1") =
      (Except.ok (some TaskState.Working) : Except String (Option TaskState)) from rfl] at h
  simp at h

/-- C1 (amended): an error returned by the executor's `execute` call is only
logged; it causes no store mutation of its own — the background block's
result is the same as for a successful `execute` with the same events.  The
stored status transitions to Failed exactly when a `Failed` event is drained
(here shown with the task present in the store). -/
theorem exec_error_logged_only (s : InMemoryTaskStore) (e f : String)
    (events : List AgentEvent) (t : Task)
    (hget : s.get_task t.id = Except.ok (some t)) :
    background s (Except.error e) events t.id = background s (Except.ok ()) events t.id ∧
    (background s (Except.error e) [AgentEvent.Failed f] t.id).get_task t.id =
      Except.ok (some { t with status := { state := TaskState.Failed } }) := by
  have hl : lookupA s.tasks t.id = some t := by
    simpa [InMemoryTaskStore.get_task] using hget
  constructor
  · rw [background_eq_drainLoop, background_eq_drainLoop]
  · rw [background_eq_drainLoop]
    simp [drainLoop, applyEvent, hl, InMemoryTaskStore.get_task,
      InMemoryTaskStore.update_task, lookupA_insertA_self]

/-- C1 (witness for the amended claim): concrete instance at a store holding
one Working task. -/
theorem exec_error_logged_only_witness :
    background { tasks := [("t1", Task.new "t1")], history := [] }
      (Except.error "boom") [] (Task.new "t1").id =
      background { tasks := [("t1", Task.new "t1")], history := [] }
        (Except.ok ()) [] (Task.new "t1").id ∧
    (background { tasks := [("t1", Task.new "t1")], history := [] }
      (Except.error "boom") [AgentEvent.Failed "x"] (Task.new "t1").id).get_task
        (Task.new "t1").id =
      Except.ok (some { Task.new "t1" with status := { state := TaskState.Failed } }) :=
  exec_error_logged_only { tasks := [("t1", Task.new "t1")], history := [] }
    "boom" "x" [] (Task.new "t1") rfl

/-- C3: events arriving after the stored task has already reached a terminal
state are still applied to the store rather than rejected: a `StatusUpdate`
overwrites the stored task and the drain loop continues, a `Message` is
applied and the loop continues, and consecutive status writes obey
last-write-wins (the final write is what a later lookup observes). -/
theorem terminal_state_events_still_applied (s : InMemoryTaskStore) (tid : String)
    (t u v : Task) (m : Message)
    (hget : s.get_task tid = Except.ok (some t)) (hid : t.id = tid)
    (_hterm : t.status.state.isTerminal = true) :
    (applyEvent s tid (AgentEvent.StatusUpdate u)).2 = true ∧
    (applyEvent s tid (AgentEvent.StatusUpdate u)).1.get_task u.id = Except.ok (some u) ∧
    (applyEvent s tid (AgentEvent.Message m)).2 = true ∧
    (applyEvent s tid (AgentEvent.Message m)).1.get_task tid =
      Except.ok (some (t.with_artifact (message_to_artifact m))) ∧
    (drainLoop s tid [AgentEvent.StatusUpdate u, AgentEvent.StatusUpdate v]).get_task v.id =
      Except.ok (some v) := by
  subst hid
  have hl : lookupA s.tasks t.id = some t := by
    simpa [InMemoryTaskStore.get_task] using hget
  refine ⟨rfl, ?_, ?_, ?_, ?_⟩
  · simp [applyEvent, InMemoryTaskStore.update_task, InMemoryTaskStore.get_task,
      lookupA_insertA_self]
  · simp [applyEvent, InMemoryTaskStore.store_message, InMemoryTaskStore.update_task,
      InMemoryTaskStore.get_task, hl]
  · simp [applyEvent, InMemoryTaskStore.store_message, InMemoryTaskStore.update_task,
      InMemoryTaskStore.get_task, hl, lookupA_insertA_self, Task.with_artifact]
  · simp [drainLoop, applyEvent, InMemoryTaskStore.update_task, InMemoryTaskStore.get_task,
      lookupA_insertA_self]

/-- C3 (witness): concrete instance at a store whose task is already
Completed (a terminal state). -/
theorem terminal_state_events_still_applied_witness :
    (applyEvent { tasks := [("t1", (Task.new "t1").complete)], history := [] } "t1"
      (AgentEvent.StatusUpdate (Task.new "t1"))).2 = true ∧
    (applyEvent { tasks := [("t1", (Task.new "t1").complete)], history := [] } "t1"
      (AgentEvent.StatusUpdate (Task.new "t1"))).1.get_task (Task.new "t1").id =
      Except.ok (some (Task.new "t1")) ∧
    (applyEvent { tasks := [("t1", (Task.new "t1").complete)], history := [] } "t1"
      (AgentEvent.Message (Message.agent_text "hi"))).2 = true ∧
    (applyEvent { tasks := [("t1", (Task.new "t1").complete)], history := [] } "t1"
      (AgentEvent.Message (Message.agent_text "hi"))).1.get_task "t1" =
      Except.ok (some (((Task.new "t1").complete).with_artifact
        (message_to_artifact (Message.agent_text "hi")))) ∧
    (drainLoop { tasks := [("t1", (Task.new "t1").complete)], history := [] } "t1"
      [AgentEvent.StatusUpdate (Task.new "t1"),
       AgentEvent.StatusUpdate ((Task.new "t1").fail)]).get_task ((Task.new "t1").fail).id =
      Except.ok (some ((Task.new "t1").fail)) :=
  terminal_state_events_still_applied
    { tasks := [("t1", (Task.new "t1").complete)], history := [] } "t1"
    ((Task.new "t1").complete) (Task.new "t1") ((Task.new "t1").fail)
    (Message.agent_text "hi") rfl rfl rfl

/-- C4: a `tasks/cancel` call whose task exists in the store (the in-memory
store's writes always succeed) returns a success result whose task status is
Canceled; the executor's `cancel` outcome — success or failure — is only
logged and never changes the response, as witnessed by the universal
quantification over the executor. -/
theorem cancel_reports_canceled (ex : AgentExecutor) (s : InMemoryTaskStore)
    (rid : RequestId) (pv : ParamsValue) (p : TaskIdParams) (t : Task)
    (hp : pv.asTaskId = Except.ok p)
    (hget : s.get_task p.id = Except.ok (some t)) :
    (handle_task_cancel ex s (some pv) rid).1 =
      JsonRpcResponse.mkSuccess rid { t with status := { state := TaskState.Canceled } } ∧
    ∃ u, (handle_task_cancel ex s (some pv) rid).1.result = some u ∧
      u.status.state = TaskState.Canceled := by
  have hl : lookupA s.tasks p.id = some t := by
    simpa [InMemoryTaskStore.get_task] using hget
  constructor
  · simp [handle_task_cancel, hp, InMemoryTaskStore.get_task, hl,
      InMemoryTaskStore.update_task, InMemoryTaskStore.get_history]
  · refine ⟨{ t with status := { state := TaskState.Canceled } }, ?_, rfl⟩
    simp [handle_task_cancel, hp, InMemoryTaskStore.get_task, hl,
      InMemoryTaskStore.update_task, InMemoryTaskStore.get_history,
      JsonRpcResponse.mkSuccess]

/-- C4 (witness): concrete instance whose executor's `cancel` fails; the
response still reports status Canceled. -/
theorem cancel_reports_canceled_witness :
    (handle_task_cancel
      { execute := fun _ => (Except.ok (), []), cancel := fun _ => Except.error "nope" }
      { tasks := [("t1", Task.new "t1")], history := [] }
      (some { asSend := Except.error "x", asQuery := Except.error "x",
              asTaskId := Except.ok { id := "t1", metadata := none } })
      (RequestId.num 1)).1 =
      JsonRpcResponse.mkSuccess (RequestId.num 1)
        { Task.new "t1" with status := { state := TaskState.Canceled } } ∧
    ∃ u, (handle_task_cancel
      { execute := fun _ => (Except.ok (), []), cancel := fun _ => Except.error "nope" }
      { tasks := [("t1", Task.new "t1")], history := [] }
      (some { asSend := Except.error "x", asQuery := Except.error "x",
              asTaskId := Except.ok { id := "t1", metadata := none } })
      (RequestId.num 1)).1.result = some u ∧
      u.status.state = TaskState.Canceled :=
  cancel_reports_canceled
    { execute := fun _ => (Except.ok (), []), cancel := fun _ => Except.error "nope" }
    { tasks := [("t1", Task.new "t1")], history := [] }
    (RequestId.num 1)
    { asSend := Except.error "x", asQuery := Except.error "x",
      asTaskId := Except.ok { id := "t1", metadata := none } }
    { id := "t1", metadata := none } (Task.new "t1") rfl rfl

/-- C5: when a `Message` event is drained with the task present, the message
is appended to the task's history and the stored task is read-modify-written
with one synthesized artifact appended after all previously stored
artifacts; the artifact's name is built from the message's role, its parts
are the message's parts, and its `last_chunk` flag is `true`. -/
theorem message_event_appends_history_and_artifact (s : InMemoryTaskStore)
    (tid : String) (t : Task) (m : Message)
    (hget : s.get_task tid = Except.ok (some t)) (hid : t.id = tid) :
    (applyEvent s tid (AgentEvent.Message m)).1.get_history tid =
      Except.map (fun h => h ++ [m]) (s.get_history tid) ∧
    (applyEvent s tid (AgentEvent.Message m)).1.get_task tid =
      Except.ok (some
        { t with artifacts := some (t.artifacts.getD [] ++ [message_to_artifact m]) }) ∧
    (message_to_artifact m).name = some (m.role ++ " message") ∧
    (message_to_artifact m).parts = m.parts ∧
    (message_to_artifact m).last_chunk = some true := by
  subst hid
  have hl : lookupA s.tasks t.id = some t := by
    simpa [InMemoryTaskStore.get_task] using hget
  refine ⟨?_, ?_, rfl, rfl, rfl⟩
  · simp [applyEvent, InMemoryTaskStore.store_message, InMemoryTaskStore.update_task,
      InMemoryTaskStore.get_task, InMemoryTaskStore.get_history, hl,
      lookupA_insertA_self, Except.map]
  · simp [applyEvent, InMemoryTaskStore.store_message, InMemoryTaskStore.update_task,
      InMemoryTaskStore.get_task, hl, lookupA_insertA_self, Task.with_artifact]

/-- C5 (witness): concrete instance at a task that already holds one
artifact; the synthesized artifact lands after it. -/
theorem message_event_appends_history_and_artifact_witness :
    (applyEvent
      { tasks := [("t1", (Task.new "t1").with_artifact (message_to_artifact
          (Message.agent_text "old")))], history := [] } "t1"
      (AgentEvent.Message (Message.agent_text "hello"))).1.get_history "t1" =
      Except.map (fun h => h ++ [Message.agent_text "hello"])
        (InMemoryTaskStore.get_history
          { tasks := [("t1", (Task.new "t1").with_artifact (message_to_artifact
              (Message.agent_text "old")))], history := [] } "t1") ∧
    (applyEvent
      { tasks := [("t1", (Task.new "t1").with_artifact (message_to_artifact
          (Message.agent_text "old")))], history := [] } "t1"
      (AgentEvent.Message (Message.agent_text "hello"))).1.get_task "t1" =
      Except.ok (some
        { (Task.new "t1").with_artifact (message_to_artifact (Message.agent_text "old")) with
          artifacts := some
            (((Task.new "t1").with_artifact (message_to_artifact
              (Message.agent_text "old"))).artifacts.getD [] ++
              [message_to_artifact (Message.agent_text "hello")]) }) ∧
    (message_to_artifact (Message.agent_text "hello")).name =
      some ((Message.agent_text "hello").role ++ " message") ∧
    (message_to_artifact (Message.agent_text "hello")).parts =
      (Message.agent_text "hello").parts ∧
    (message_to_artifact (Message.agent_text "hello")).last_chunk = some true :=
  message_event_appends_history_and_artifact
    { tasks := [("t1", (Task.new "t1").with_artifact (message_to_artifact
        (Message.agent_text "old")))], history := [] } "t1"
    ((Task.new "t1").with_artifact (message_to_artifact (Message.agent_text "old")))
    (Message.agent_text "hello") rfl rfl

/-- C7: a `tasks/get` whose parameters parse and whose identifier the store
lookup does not find yields the task-not-found error, code exactly -32001; a
store lookup failure yields internal-error, -32603; a successful lookup
returns the stored snapshot as the result. -/
theorem task_get_error_codes (rid : RequestId) (pv : ParamsValue) (p : TaskQueryParams)
    (g1 g2 g3 : String → Except String (Option Task)) (msg : String) (t : Task)
    (hq : pv.asQuery = Except.ok p)
    (h1 : g1 p.base.id = Except.ok none)
    (h2 : g2 p.base.id = Except.error msg)
    (h3 : g3 p.base.id = Except.ok (some t)) :
    handle_task_get_core g1 (some pv) rid =
      JsonRpcResponse.mkError rid (JsonRpcError.task_not_found "Task not found") ∧
    (JsonRpcError.task_not_found "Task not found").code = -32001 ∧
    handle_task_get_core g2 (some pv) rid =
      JsonRpcResponse.mkError rid
        (JsonRpcError.internal_error ("Failed to get task: " ++ msg)) ∧
    (JsonRpcError.internal_error ("Failed to get task: " ++ msg)).code = -32603 ∧
    handle_task_get_core g3 (some pv) rid = JsonRpcResponse.mkSuccess rid t := by
  refine ⟨?_, rfl, ?_, rfl, ?_⟩
  · simp [handle_task_get_core, hq, h1]
  · simp [handle_task_get_core, hq, h2]
  · simp [handle_task_get_core, hq, h3]

/-- C7 (witness): concrete instances of the three lookup outcomes. -/
theorem task_get_error_codes_witness :
    handle_task_get_core (fun _ => Except.ok none)
      (some { asSend := Except.error "x", asTaskId := Except.error "x",
              asQuery := Except.ok { base := { id := "t1", metadata := none },
                                     history_length := none } })
      (RequestId.str "q") =
      JsonRpcResponse.mkError (RequestId.str "q")
        (JsonRpcError.task_not_found "Task not found") ∧
    (JsonRpcError.task_not_found "Task not found").code = -32001 ∧
    handle_task_get_core (fun _ => Except.error "db down")
      (some { asSend := Except.error "x", asTaskId := Except.error "x",
              asQuery := Except.ok { base := { id := "t1", metadata := none },
                                     history_length := none } })
      (RequestId.str "q") =
      JsonRpcResponse.mkError (RequestId.str "q")
        (JsonRpcError.internal_error ("Failed to get task: " ++ "db down")) ∧
    (JsonRpcError.internal_error ("Failed to get task: " ++ "db down")).code = -32603 ∧
    handle_task_get_core (fun _ => Except.ok (some (Task.new "t1")))
      (some { asSend := Except.error "x", asTaskId := Except.error "x",
              asQuery := Except.ok { base := { id := "t1", metadata := none },
                                     history_length := none } })
      (RequestId.str "q") =
      JsonRpcResponse.mkSuccess (RequestId.str "q") (Task.new "t1") :=
  task_get_error_codes (RequestId.str "q")
    { asSend := Except.error "x", asTaskId := Except.error "x",
      asQuery := Except.ok { base := { id := "t1", metadata := none },
                             history_length := none } }
    { base := { id := "t1", metadata := none }, history_length := none }
    (fun _ => Except.ok none) (fun _ => Except.error "db down")
    (fun _ => Except.ok (some (Task.new "t1"))) "db down" (Task.new "t1")
    rfl rfl rfl rfl

/-- C8: a request whose method is none of "message/send", "tasks/get",
"tasks/cancel" gets a method-not-found error envelope, code -32601, whose id
is the request's id echoed exactly (an absent inbound id becomes the
explicit Null id), and the store is untouched. -/
theorem unknown_method_not_found (ex : AgentExecutor) (s : InMemoryTaskStore)
    (req : JsonRpcRequest)
    (h1 : req.method ≠ "message/send") (h2 : req.method ≠ "tasks/get")
    (h3 : req.method ≠ "tasks/cancel") :
    handle ex s req = some
      (JsonRpcResponse.mkError (req.id.getD RequestId.null)
        (JsonRpcError.method_not_found ("Method not found: " ++ req.method)), s) ∧
    (JsonRpcError.method_not_found ("Method not found: " ++ req.method)).code = -32601 := by
  refine ⟨?_, rfl⟩
  simp [handle, h1, h2, h3]

/-- C8 (witness): three concrete instances — string id, numeric id, and
absent id (which becomes explicit Null) — at method "tasks/frobnicate". -/
theorem unknown_method_not_found_witness :
    (handle { execute := fun _ => (Except.ok (), []), cancel := fun _ => Except.ok () }
      InMemoryTaskStore.new
      { jsonrpc := "2.0", id := some (RequestId.str "abc"),
        method := "tasks/frobnicate", params := none } = some
      (JsonRpcResponse.mkError ((some (RequestId.str "abc")).getD RequestId.null)
        (JsonRpcError.method_not_found ("Method not found: " ++ "tasks/frobnicate")),
        InMemoryTaskStore.new) ∧
      (JsonRpcError.method_not_found ("Method not found: " ++ "tasks/frobnicate")).code =
        -32601) ∧
    (handle { execute := fun _ => (Except.ok (), []), cancel := fun _ => Except.ok () }
      InMemoryTaskStore.new
      { jsonrpc := "2.0", id := some (RequestId.num 7),
        method := "tasks/frobnicate", params := none } = some
      (JsonRpcResponse.mkError ((some (RequestId.num 7)).getD RequestId.null)
        (JsonRpcError.method_not_found ("Method not found: " ++ "tasks/frobnicate")),
        InMemoryTaskStore.new) ∧
      (JsonRpcError.method_not_found ("Method not found: " ++ "tasks/frobnicate")).code =
        -32601) ∧
    (handle { execute := fun _ => (Except.ok (), []), cancel := fun _ => Except.ok () }
      InMemoryTaskStore.new
      { jsonrpc := "2.0", id := none,
        method := "tasks/frobnicate", params := none } = some
      (JsonRpcResponse.mkError ((none : Option RequestId).getD RequestId.null)
        (JsonRpcError.method_not_found ("Method not found: " ++ "tasks/frobnicate")),
        InMemoryTaskStore.new) ∧
      (JsonRpcError.method_not_found ("Method not found: " ++ "tasks/frobnicate")).code =
        -32601) :=
  ⟨unknown_method_not_found _ _ _ (by decide) (by decide) (by decide),
   unknown_method_not_found _ _ _ (by decide) (by decide) (by decide),
   unknown_method_not_found _ _ _ (by decide) (by decide) (by decide)⟩

/-- C6: the task record created and persisted by `message/send` before the
executor launches carries the identifier from the params, status Working and
no artifacts; and for every executor behaviour the response's task
identifier equals the supplied one (the store keeps each task under its own
identifier, and draining never removes the just-stored record). -/
theorem send_creates_working_task_and_echoes_id (ex : AgentExecutor)
    (s : InMemoryTaskStore) (rid : RequestId) (pv : ParamsValue) (p : TaskSendParams)
    (hwf : s.wf) (hp : pv.asSend = Except.ok p) :
    (Task.new p.id).id = p.id ∧
    (Task.new p.id).status.state = TaskState.Working ∧
    (Task.new p.id).artifacts = none ∧
    ∃ resp s' u, handle_message_send ex s (some pv) rid = some (resp, s') ∧
      resp.result = some u ∧ u.id = p.id := by
  refine ⟨rfl, rfl, rfl, ?_⟩
  simp only [handle_message_send, hp, InMemoryTaskStore.store_message,
    InMemoryTaskStore.store_task, InMemoryTaskStore.get_history,
    background_eq_drainLoop]
  simp only [show (Task.new p.id).id = p.id from rfl]
  rcases hex : ex.execute
      { task_id := p.id, session_id := p.session_id, message := p.message,
        history := (lookupA (insertA s.history p.id
          ((lookupA s.history p.id).getD [] ++ [p.message])) p.id).getD [] }
    with ⟨r, ev⟩
  have hwf2 : InMemoryTaskStore.wf
      { tasks := insertA s.tasks p.id (Task.new p.id),
        history := insertA s.history p.id
          ((lookupA s.history p.id).getD [] ++ [p.message]) } := by
    intro k u hk
    exact wf_insertA s.tasks (Task.new p.id) hwf k u hk
  have hmem : (lookupA (drainLoop
      { tasks := insertA s.tasks p.id (Task.new p.id),
        history := insertA s.history p.id
          ((lookupA s.history p.id).getD [] ++ [p.message]) }
      p.id ev).tasks p.id).isSome :=
    drainLoop_mem p.id ev p.id _ (by simp [lookupA_insertA_self])
  obtain ⟨u, hu⟩ := Option.isSome_iff_exists.mp hmem
  have huid : u.id = p.id := drainLoop_wf p.id ev _ hwf2 p.id u hu
  simp only [InMemoryTaskStore.get_task, send_readback, hu]
  exact ⟨JsonRpcResponse.mkSuccess rid u, _, u, rfl, rfl, huid⟩

/-- C6 (witness): concrete instance on an empty store with an executor that
answers with a message and then completes the task. -/
theorem send_creates_working_task_and_echoes_id_witness :
    (Task.new "t1").id = "t1" ∧
    (Task.new "t1").status.state = TaskState.Working ∧
    (Task.new "t1").artifacts = none ∧
    ∃ resp s' u, handle_message_send
      { execute := fun _ => (Except.ok (),
          [AgentEvent.Message (Message.agent_text "hello"),
           AgentEvent.Completed ((Task.new "t1").complete)]),
        cancel := fun _ => Except.ok () }
      InMemoryTaskStore.new
      (some { asSend := Except.ok
                { id := "t1", session_id := none, message := Message.user_text "hi",
                  push_notification := none, history_length := none, metadata := none },
              asQuery := Except.error "x", asTaskId := Except.error "x" })
      (RequestId.num 5) = some (resp, s') ∧
      resp.result = some u ∧ u.id = "t1" :=
  send_creates_working_task_and_echoes_id
    { execute := fun _ => (Except.ok (),
        [AgentEvent.Message (Message.agent_text "hello"),
         AgentEvent.Completed ((Task.new "t1").complete)]),
      cancel := fun _ => Except.ok () }
    InMemoryTaskStore.new (RequestId.num 5)
    { asSend := Except.ok
        { id := "t1", session_id := none, message := Message.user_text "hi",
          push_notification := none, history_length := none, metadata := none },
      asQuery := Except.error "x", asTaskId := Except.error "x" }
    { id := "t1", session_id := none, message := Message.user_text "hi",
      push_notification := none, history_length := none, metadata := none }
    (by intro k t h; simp [InMemoryTaskStore.new, lookupA] at h) rfl

end A2A
